import Mathlib

/-!
Shallow embedding of the Universal_Button debounce / press-classification
engine (`ButtonHandler<N>` from the library header with latching support,
together with `ButtonTypes.h`).  Machine integers (`uint32_t` timestamps)
are modelled as `Nat` with explicit modular subtraction `wsub`, matching
the unsigned wraparound arithmetic `now - t` of the source.  The per-button
body of `update(uint32_t now)` is split into named blocks (`edgeStep`,
`commitStep` with `releaseClassify`, `flushStep`) that mirror the
consecutive blocks of the source loop; `updateButton` is their composition
guarded by the `enabled` skip.  The handler-level API (`isPressed`,
`getPressType`, `reset`, `enable`, ...) is embedded over a state of `N`
buttons.
-/

/-- Size of the uint32 value space. -/
def u32 : Nat := 4294967296

/-- Unsigned 32-bit subtraction `a - b` with wraparound, as computed by the
    source on `uint32_t` timestamps. -/
def wsub (a b : Nat) : Nat := (a + (u32 - b % u32)) % u32

/-- Press event classification (`ButtonPressType` in `ButtonTypes.h`). -/
inductive ButtonPressType : Type where
  | None   : ButtonPressType
  | Short  : ButtonPressType
  | Long   : ButtonPressType
  | Double : ButtonPressType
deriving DecidableEq, Repr, BEq

/-- Latching behavior applied on a trigger event (`LatchMode`). -/
inductive LatchMode : Type where
  | Toggle : LatchMode
  | Set    : LatchMode
  | Reset  : LatchMode
deriving DecidableEq, Repr

/-- Which press event drives latching (`LatchTrigger`). -/
inductive LatchTrigger : Type where
  | Short  : LatchTrigger
  | Long   : LatchTrigger
  | Double : LatchTrigger
deriving DecidableEq, Repr

/-- Global debounce / press-duration timings (`ButtonTimingConfig`),
    with the source's constructor defaults. -/
structure ButtonTimingConfig : Type where
  debounce_ms : Nat := 30
  short_press_ms : Nat := 200
  long_press_ms : Nat := 1000
  double_click_ms : Nat := 400
deriving DecidableEq, Repr

/-- Per-button overrides and flags (`ButtonPerConfig`), with the source's
    member defaults.  Zero timing fields fall back to the globals. -/
structure ButtonPerConfig : Type where
  debounce_ms : Nat := 0
  short_press_ms : Nat := 0
  long_press_ms : Nat := 0
  double_click_ms : Nat := 0
  active_low : Bool := true
  enabled : Bool := true
  latch_enabled : Bool := false
  latch_mode : LatchMode := LatchMode.Toggle
  latch_on : LatchTrigger := LatchTrigger.Short
  latch_initial : Bool := false
deriving DecidableEq, Repr

/-- Runtime state of one button: the per-index slices of the source arrays
    `last_state_` (committed), `last_state_read_` (raw), `last_state_change_`,
    `press_start_`, `event_`, `pending_short_`, `pending_since_`,
    `last_duration_`, the bits `latched_[i]` and `latched_changed_[i]`, and
    the per-button config `per_[i]`. -/
structure ButtonState : Type where
  last_state : Bool
  last_state_read : Bool
  last_state_change : Nat
  press_start : Nat
  event : ButtonPressType
  pending_short : Bool
  pending_since : Nat
  last_duration : Nat
  latched : Bool
  latched_changed : Bool
  per : ButtonPerConfig
deriving DecidableEq, Repr

/-- Constructor-loop initialization of one button's state at time `t0`
    (committed and raw false, timestamps rebased, no event, latch at
    `latch_initial`). -/
def ButtonState.init (per : ButtonPerConfig) (t0 : Nat) : ButtonState :=
  { last_state := false
    last_state_read := false
    last_state_change := t0
    press_start := 0
    event := ButtonPressType.None
    pending_short := false
    pending_since := 0
    last_duration := 0
    latched := per.latch_initial
    latched_changed := false
    per := per }

/-- Event/trigger matching (`latchMatches_`). -/
def latchMatches_ (trig : LatchTrigger) (evt : ButtonPressType) : Bool :=
  match trig with
  | LatchTrigger.Short => evt == ButtonPressType.Short
  | LatchTrigger.Long => evt == ButtonPressType.Long
  | LatchTrigger.Double => evt == ButtonPressType.Double

/-- Latch application on a finalized event (`applyLatch_`): returns the new
    `(latched, latched_changed)` pair.  A no-op unless latching is enabled
    and the event matches the configured trigger; raises the changed flag
    exactly when the computed after-value differs from the before-value. -/
def applyLatch_ (per : ButtonPerConfig) (evt : ButtonPressType)
    (latched latched_changed : Bool) : Bool × Bool :=
  if !per.latch_enabled then (latched, latched_changed)
  else if !latchMatches_ per.latch_on evt then (latched, latched_changed)
  else
    let before := latched
    let after :=
      match per.latch_mode with
      | LatchMode.Toggle => !before
      | LatchMode.Set => true
      | LatchMode.Reset => false
    if after ≠ before then (after, true) else (latched, latched_changed)

/-- Timing resolution: per-button override when non-zero, else global
    (the ternaries computing `dms`, `sms`, `lms`, `dcms`). -/
def resolveT (perv glob : Nat) : Nat := if perv ≠ 0 then perv else glob

/-- Debounce edge detection: restart the window on any raw edge. -/
def edgeStep (now : Nat) (raw : Bool) (st : ButtonState) : ButtonState :=
  if raw ≠ st.last_state_read then
    { st with last_state_read := raw, last_state_change := now }
  else st

/-- Press duration as computed on a committed release: `now - press_start`
    in uint32 arithmetic, or 0 when `press_start` is unset (zero). -/
def pressDuration (now : Nat) (st : ButtonState) : Nat :=
  if st.press_start ≠ 0 then wsub now st.press_start else 0

/-- Release-commit classification block of `update`: compute the duration
    (0 when `press_start` is unset), record it as `last_duration`, classify
    Long / Double / held-back pending Short / None, and clear `press_start`. -/
def releaseClassify (sms lms dcms now : Nat) (st : ButtonState) : ButtonState :=
  let duration := pressDuration now st
  let st := { st with last_duration := duration }
  let st :=
    if lms ≤ duration then
      let p := applyLatch_ st.per ButtonPressType.Long st.latched st.latched_changed
      { st with event := ButtonPressType.Long, latched := p.1, latched_changed := p.2 }
    else if sms ≤ duration then
      if st.pending_short = true ∧ wsub now st.pending_since ≤ dcms then
        let p := applyLatch_ st.per ButtonPressType.Double st.latched st.latched_changed
        { st with event := ButtonPressType.Double, pending_short := false,
                  latched := p.1, latched_changed := p.2 }
      else
        { st with pending_short := true, pending_since := now }
    else
      { st with event := ButtonPressType.None }
  { st with press_start := 0 }

/-- Commit block of `update`: when the raw level has been stable for at
    least the debounce window and differs from the committed level, commit
    it; a press records `press_start`, a release runs `releaseClassify`. -/
def commitStep (dms sms lms dcms now : Nat) (st : ButtonState) : ButtonState :=
  if dms ≤ wsub now st.last_state_change ∧ st.last_state ≠ st.last_state_read then
    let st := { st with last_state := st.last_state_read }
    if st.last_state then { st with press_start := now }
    else releaseClassify sms lms dcms now st
  else st

/-- Pending-single flush block of `update`: a held-back Short fires only
    when it is still pending, no event is queued, both raw and committed
    are released, and the double-click window has elapsed. -/
def flushStep (dcms now : Nat) (st : ButtonState) : ButtonState :=
  if st.pending_short = true ∧ st.event = ButtonPressType.None then
    if st.last_state = false ∧ st.last_state_read = false ∧
        dcms ≤ wsub now st.pending_since then
      let p := applyLatch_ st.per ButtonPressType.Short st.latched st.latched_changed
      { st with event := ButtonPressType.Short, pending_short := false,
                latched := p.1, latched_changed := p.2 }
    else st
  else st

/-- Per-button body of `update(uint32_t now)`: skip when disabled, resolve
    timings, apply polarity to the reader's value, then run the edge,
    commit and flush blocks in source order. -/
def updateButton (timing : ButtonTimingConfig) (now : Nat)
    (pressed_default : Bool) (st : ButtonState) : ButtonState :=
  if st.per.enabled = false then st
  else
    let dms := resolveT st.per.debounce_ms timing.debounce_ms
    let sms := resolveT st.per.short_press_ms timing.short_press_ms
    let lms := resolveT st.per.long_press_ms timing.long_press_ms
    let dcms := resolveT st.per.double_click_ms timing.double_click_ms
    let raw := if st.per.active_low then pressed_default else !pressed_default
    flushStep dcms now (commitStep dms sms lms dcms now (edgeStep now raw st))

/-- Fold of `updateButton` over a trace of `(now, reader value)` ticks. -/
def runButton (timing : ButtonTimingConfig) (st : ButtonState) :
    List (Nat × Bool) → ButtonState
  | [] => st
  | (now, pd) :: rest => runButton timing (updateButton timing now pd st) rest

/-- Polling-loop harness: run a trace, performing the consuming
    `getPressType` read after every tick; returns the final state and the
    list of events consumed (one per tick, `None` when no event). -/
def runConsume (timing : ButtonTimingConfig) (st : ButtonState) :
    List (Nat × Bool) → ButtonState × List ButtonPressType
  | [] => (st, [])
  | (now, pd) :: rest =>
      let st1 := updateButton timing now pd st
      let r := runConsume timing { st1 with event := ButtonPressType.None } rest
      (r.1, st1.event :: r.2)

/-- Trace condition for debounce stability: at every tick, after the edge
    update, the raw level has been stable for strictly less than the
    resolved debounce window. -/
def flipsWithin (timing : ButtonTimingConfig) (st : ButtonState) :
    List (Nat × Bool) → Bool
  | [] => true
  | (now, pd) :: rest =>
      let dms := resolveT st.per.debounce_ms timing.debounce_ms
      let raw := if st.per.active_low then pd else !pd
      let st1 := edgeStep now raw st
      decide (wsub now st1.last_state_change < dms) &&
        flipsWithin timing (updateButton timing now pd st) rest

/-- Handler of `N` buttons (`ButtonHandler<N>`): the global timing
    configuration and the per-index button state (arrays in the source). -/
structure ButtonHandler (N : Nat) : Type where
  timing : ButtonTimingConfig
  buttons : Fin N → ButtonState

namespace ButtonHandler

/-- Tick over all buttons (`update(uint32_t now)` with the reader values
    supplied per index). -/
def update {N : Nat} (h : ButtonHandler N) (now : Nat)
    (reads : Fin N → Bool) : ButtonHandler N :=
  { h with buttons := fun i => updateButton h.timing now (reads i) (h.buttons i) }

/-- Debounced state query; `false` when the index is out of range. -/
def isPressed {N : Nat} (h : ButtonHandler N) (id : Nat) : Bool :=
  if hlt : id < N then (h.buttons ⟨id, hlt⟩).last_state else false

/-- Consuming event read; `(None, unchanged)` when out of range. -/
def getPressType {N : Nat} (h : ButtonHandler N) (id : Nat) :
    ButtonPressType × ButtonHandler N :=
  if hlt : id < N then
    let i : Fin N := ⟨id, hlt⟩
    let e := (h.buttons i).event
    let b := { h.buttons i with event := ButtonPressType.None }
    (e, { h with buttons := Function.update h.buttons i b })
  else (ButtonPressType.None, h)

/-- Duration of the most recent completed press; `0` when out of range. -/
def getLastPressDuration {N : Nat} (h : ButtonHandler N) (id : Nat) : Nat :=
  if hlt : id < N then (h.buttons ⟨id, hlt⟩).last_duration else 0

/-- Latched-state query; `false` when out of range. -/
def isLatched {N : Nat} (h : ButtonHandler N) (id : Nat) : Bool :=
  if hlt : id < N then (h.buttons ⟨id, hlt⟩).latched else false

/-- Force the latched state (`setLatched`): no-op out of range or when the
    value does not change; otherwise update and raise the changed flag. -/
def setLatched {N : Nat} (h : ButtonHandler N) (id : Nat) (v : Bool) :
    ButtonHandler N :=
  if hlt : id < N then
    let i : Fin N := ⟨id, hlt⟩
    let was := (h.buttons i).latched
    if was = v then h
    else
      let b := { h.buttons i with latched := v, latched_changed := true }
      { h with buttons := Function.update h.buttons i b }
  else h

/-- Consuming read of the latch edge flag; `(false, unchanged)` when out of
    range. -/
def getAndClearLatchedChanged {N : Nat} (h : ButtonHandler N) (id : Nat) :
    Bool × ButtonHandler N :=
  if hlt : id < N then
    let i : Fin N := ⟨id, hlt⟩
    let v := (h.buttons i).latched_changed
    let b := { h.buttons i with latched_changed := false }
    (v, { h with buttons := Function.update h.buttons i b })
  else (false, h)

/-- Full reset (`reset()`): reinitialize every button's runtime state at
    time `t0`, reapplying `latch_initial`; configuration untouched. -/
def reset {N : Nat} (h : ButtonHandler N) (t0 : Nat) : ButtonHandler N :=
  { h with buttons := fun i =>
      { h.buttons i with
        last_state := false
        last_state_read := false
        last_state_change := t0
        press_start := 0
        event := ButtonPressType.None
        last_duration := 0
        pending_short := false
        pending_since := 0
        latched := (h.buttons i).per.latch_initial
        latched_changed := false } }

/-- Single-button runtime reset (`resetButton_`): clears all runtime state
    including the latch (to OFF, not to `latch_initial`) and its edge flag;
    the per-button configuration is untouched. -/
def resetButton_ (now : Nat) (st : ButtonState) : ButtonState :=
  { st with
    last_state := false
    last_state_read := false
    last_state_change := now
    press_start := 0
    event := ButtonPressType.None
    pending_short := false
    pending_since := 0
    last_duration := 0
    latched := false
    latched_changed := false }

/-- Per-button configuration override (`setPerConfig`): silently ignored
    out of range; latched state preserved (`latch_initial` only applies on
    `reset()` and at construction). -/
def setPerConfig {N : Nat} (h : ButtonHandler N) (id : Nat)
    (c : ButtonPerConfig) : ButtonHandler N :=
  if hlt : id < N then
    let i : Fin N := ⟨id, hlt⟩
    let b := { h.buttons i with per := c }
    { h with buttons := Function.update h.buttons i b }
  else h

/-- Enable/disable a button (`enable`): silently ignored out of range;
    disabling also resets the button's runtime state at the current time. -/
def enable {N : Nat} (h : ButtonHandler N) (id : Nat) (en : Bool)
    (now : Nat) : ButtonHandler N :=
  if hlt : id < N then
    let i : Fin N := ⟨id, hlt⟩
    let b := { h.buttons i with per := { (h.buttons i).per with enabled := en } }
    let h1 : ButtonHandler N := { h with buttons := Function.update h.buttons i b }
    if en = false then
      { h1 with buttons := Function.update h1.buttons i (resetButton_ now (h1.buttons i)) }
    else h1
  else h

/-- Polarity setter (`setActiveLow`): silently ignored out of range. -/
def setActiveLow {N : Nat} (h : ButtonHandler N) (id : Nat)
    (activeLow : Bool) : ButtonHandler N :=
  if hlt : id < N then
    let i : Fin N := ⟨id, hlt⟩
    let b := { h.buttons i with per := { (h.buttons i).per with active_low := activeLow } }
    { h with buttons := Function.update h.buttons i b }
  else h

end ButtonHandler

/-- After-value computed by the `latch_mode` switch of `applyLatch_`. -/
def latchAfter (m : LatchMode) (before : Bool) : Bool :=
  match m with
  | LatchMode.Toggle => !before
  | LatchMode.Set => true
  | LatchMode.Reset => false

/-- One-button handler in its constructed state, used by concrete witnesses. -/
def exampleHandler : ButtonHandler 1 :=
  { timing := {}, buttons := fun _ => ButtonState.init {} 0 }

/-- Per-button config with latching enabled (Set on Long) and the latch
    initially ON, used by concrete witnesses. -/
def exampleLatchPer : ButtonPerConfig :=
  { latch_enabled := true, latch_mode := LatchMode.Set,
    latch_on := LatchTrigger.Long, latch_initial := true }

/-- One-button handler whose button is latch-configured and currently
    latched ON, used by concrete witnesses. -/
def exampleLatchHandler : ButtonHandler 1 :=
  { timing := {}, buttons := fun _ => ButtonState.init exampleLatchPer 0 }

/-- One-button handler captured mid-press (committed pressed, a pending
    Short window open), used by concrete witnesses. -/
def examplePressedHandler : ButtonHandler 1 :=
  { timing := {}
    buttons := fun _ =>
      { last_state := true
        last_state_read := true
        last_state_change := 100
        press_start := 130
        event := ButtonPressType.None
        pending_short := true
        pending_since := 40
        last_duration := 250
        latched := false
        latched_changed := false
        per := {} } }

lemma edgeStep_last_state (now : Nat) (raw : Bool) (st : ButtonState) :
    (edgeStep now raw st).last_state = st.last_state := by
  unfold edgeStep; split <;> rfl

lemma flushStep_last_state (dcms now : Nat) (st : ButtonState) :
    (flushStep dcms now st).last_state = st.last_state := by
  unfold flushStep; split <;> (try split) <;> rfl

lemma releaseClassify_last_state (sms lms dcms now : Nat) (st : ButtonState) :
    (releaseClassify sms lms dcms now st).last_state = st.last_state := by
  unfold releaseClassify; dsimp only; split_ifs <;> rfl

lemma commitStep_not_fired (dms sms lms dcms now : Nat) (st : ButtonState)
    (h : ¬(dms ≤ wsub now st.last_state_change ∧ st.last_state ≠ st.last_state_read)) :
    commitStep dms sms lms dcms now st = st := by
  unfold commitStep; exact if_neg h

lemma commitStep_release (dms sms lms dcms now : Nat) (st : ButtonState)
    (hc : st.last_state = true) (hr : st.last_state_read = false)
    (hd : dms ≤ wsub now st.last_state_change) :
    commitStep dms sms lms dcms now st =
      releaseClassify sms lms dcms now { st with last_state := false } := by
  have hne : st.last_state ≠ st.last_state_read := by rw [hc, hr]; simp
  unfold commitStep
  rw [if_pos ⟨hd, hne⟩]
  simp [hr]

lemma updateButton_disabled (timing : ButtonTimingConfig) (now : Nat)
    (pd : Bool) (st : ButtonState) (h : st.per.enabled = false) :
    updateButton timing now pd st = st := by
  unfold updateButton; rw [if_pos h]

lemma runButton_disabled (timing : ButtonTimingConfig) (st : ButtonState)
    (h : st.per.enabled = false) (tr : List (Nat × Bool)) :
    runButton timing st tr = st := by
  induction tr with
  | nil => rfl
  | cons head rest ih =>
      obtain ⟨now, pd⟩ := head
      rw [runButton, updateButton_disabled timing now pd st h, ih]

lemma enable_false_buttons {N : Nat} (h : ButtonHandler N) (id : Nat)
    (hlt : id < N) (now : Nat) :
    (ButtonHandler.enable h id false now).buttons ⟨id, hlt⟩ =
      ButtonHandler.resetButton_ now
        { h.buttons ⟨id, hlt⟩ with
            per := { (h.buttons ⟨id, hlt⟩).per with enabled := false } } := by
  simp [ButtonHandler.enable, hlt, Function.update_same]

/-- C5: for a latch-enabled button whose trigger matches the event, in Set
    mode a second application of `applyLatch_` leaves the latched state
    unchanged and does not raise the changed flag; and in general
    `applyLatch_` yields the mode's after-value and raises the changed flag
    exactly when that after-value differs from the before-value. -/
theorem applyLatch_set_idempotent_and_changed_iff
    (per : ButtonPerConfig) (evt : ButtonPressType) (b c : Bool)
    (hen : per.latch_enabled = true)
    (hm : latchMatches_ per.latch_on evt = true) :
    (per.latch_mode = LatchMode.Set →
      ∀ c2 : Bool, applyLatch_ per evt (applyLatch_ per evt b c).1 c2 =
        ((applyLatch_ per evt b c).1, c2)) ∧
    applyLatch_ per evt b c =
      (latchAfter per.latch_mode b,
        if latchAfter per.latch_mode b ≠ b then true else c) := by
  constructor
  · intro hS c2
    cases b <;> simp [applyLatch_, hen, hm, hS]
  · cases hmode : per.latch_mode <;> cases b <;>
      simp [applyLatch_, latchAfter, hen, hm, hmode]

/-- C5 witness: concrete Set-mode double application on the example
    latch config (trigger Long), starting from latched OFF. -/
theorem applyLatch_set_idempotent_witness :
    exampleLatchPer.latch_enabled = true ∧
    latchMatches_ exampleLatchPer.latch_on ButtonPressType.Long = true ∧
    exampleLatchPer.latch_mode = LatchMode.Set ∧
    applyLatch_ exampleLatchPer ButtonPressType.Long
      (applyLatch_ exampleLatchPer ButtonPressType.Long false false).1 false =
      ((applyLatch_ exampleLatchPer ButtonPressType.Long false false).1, false) :=
  ⟨rfl, rfl, rfl,
    (applyLatch_set_idempotent_and_changed_iff exampleLatchPer
      ButtonPressType.Long false false rfl rfl).1 rfl false⟩

/-- C6: every query on an out-of-range index returns its sentinel without
    modifying the handler, and every control operation there is a silent
    no-op. -/
theorem out_of_range_sentinel_noop {N : Nat} (h : ButtonHandler N) (id : Nat)
    (hge : N ≤ id) (c : ButtonPerConfig) (en al v : Bool) (now : Nat) :
    ButtonHandler.isPressed h id = false ∧
    ButtonHandler.getPressType h id = (ButtonPressType.None, h) ∧
    ButtonHandler.getLastPressDuration h id = 0 ∧
    ButtonHandler.isLatched h id = false ∧
    ButtonHandler.getAndClearLatchedChanged h id = (false, h) ∧
    ButtonHandler.setPerConfig h id c = h ∧
    ButtonHandler.enable h id en now = h ∧
    ButtonHandler.setActiveLow h id al = h ∧
    ButtonHandler.setLatched h id v = h := by
  have hnl : ¬ id < N := Nat.not_lt.mpr hge
  refine ⟨?_, ?_, ?_, ?_, ?_, ?_, ?_, ?_, ?_⟩ <;>
    simp [ButtonHandler.isPressed, ButtonHandler.getPressType,
      ButtonHandler.getLastPressDuration, ButtonHandler.isLatched,
      ButtonHandler.getAndClearLatchedChanged, ButtonHandler.setPerConfig,
      ButtonHandler.enable, ButtonHandler.setActiveLow,
      ButtonHandler.setLatched, hnl]

/-- C6 witness: index 2 on the 1-button example handler. -/
theorem out_of_range_sentinel_noop_witness :
    (1 : Nat) ≤ 2 ∧
    ButtonHandler.isPressed exampleHandler 2 = false ∧
    ButtonHandler.getPressType exampleHandler 2 =
      (ButtonPressType.None, exampleHandler) ∧
    ButtonHandler.setLatched exampleHandler 2 true = exampleHandler :=
  ⟨by decide,
    (out_of_range_sentinel_noop exampleHandler 2 (by decide) {} true true true 0).1,
    (out_of_range_sentinel_noop exampleHandler 2 (by decide) {} true true true 0).2.1,
    (out_of_range_sentinel_noop exampleHandler 2 (by decide) {} true true true 0).2.2.2.2.2.2.2.2⟩

/-- C7: `reset` reinitializes every button's runtime state (committed and
    raw false, timestamps rebased to `t0`, press start and pending window
    cleared, event None, duration 0, latch back to `latch_initial`, edge
    flag cleared) while leaving the global timing and every per-button
    configuration unchanged. -/
theorem reset_reinitializes_state_keeps_config {N : Nat}
    (h : ButtonHandler N) (t0 : Nat) (i : Fin N) :
    ((ButtonHandler.reset h t0).buttons i).last_state = false ∧
    ((ButtonHandler.reset h t0).buttons i).last_state_read = false ∧
    ((ButtonHandler.reset h t0).buttons i).last_state_change = t0 ∧
    ((ButtonHandler.reset h t0).buttons i).press_start = 0 ∧
    ((ButtonHandler.reset h t0).buttons i).event = ButtonPressType.None ∧
    ((ButtonHandler.reset h t0).buttons i).last_duration = 0 ∧
    ((ButtonHandler.reset h t0).buttons i).pending_short = false ∧
    ((ButtonHandler.reset h t0).buttons i).pending_since = 0 ∧
    ((ButtonHandler.reset h t0).buttons i).latched = (h.buttons i).per.latch_initial ∧
    ((ButtonHandler.reset h t0).buttons i).latched_changed = false ∧
    ((ButtonHandler.reset h t0).buttons i).per = (h.buttons i).per ∧
    (ButtonHandler.reset h t0).timing = h.timing :=
  ⟨rfl, rfl, rfl, rfl, rfl, rfl, rfl, rfl, rfl, rfl, rfl, rfl⟩

/-- C8: disabling an in-range button (even mid-press) clears its committed
    state, pending-Short window and queued event, and every subsequent tick
    leaves the disabled button's state entirely unchanged. -/
theorem disable_clears_and_skips {N : Nat} (h : ButtonHandler N) (id : Nat)
    (hlt : id < N) (now : Nat) :
    ((ButtonHandler.enable h id false now).buttons ⟨id, hlt⟩).last_state = false ∧
    ((ButtonHandler.enable h id false now).buttons ⟨id, hlt⟩).pending_short = false ∧
    ((ButtonHandler.enable h id false now).buttons ⟨id, hlt⟩).event = ButtonPressType.None ∧
    ((ButtonHandler.enable h id false now).buttons ⟨id, hlt⟩).per.enabled = false ∧
    (∀ (now2 : Nat) (pd : Bool),
      updateButton (ButtonHandler.enable h id false now).timing now2 pd
          ((ButtonHandler.enable h id false now).buttons ⟨id, hlt⟩) =
        (ButtonHandler.enable h id false now).buttons ⟨id, hlt⟩) ∧
    (∀ (now2 : Nat) (reads : Fin N → Bool),
      (ButtonHandler.update (ButtonHandler.enable h id false now) now2 reads).buttons
          ⟨id, hlt⟩ =
        (ButtonHandler.enable h id false now).buttons ⟨id, hlt⟩) ∧
    (∀ tr : List (Nat × Bool),
      runButton (ButtonHandler.enable h id false now).timing
          ((ButtonHandler.enable h id false now).buttons ⟨id, hlt⟩) tr =
        (ButtonHandler.enable h id false now).buttons ⟨id, hlt⟩) := by
  have hb := enable_false_buttons h id hlt now
  have hdis : ((ButtonHandler.enable h id false now).buttons ⟨id, hlt⟩).per.enabled = false := by
    rw [hb]; rfl
  refine ⟨by rw [hb]; rfl, by rw [hb]; rfl, by rw [hb]; rfl, hdis, ?_, ?_, ?_⟩
  · intro now2 pd
    exact updateButton_disabled _ now2 pd _ hdis
  · intro now2 reads
    exact updateButton_disabled _ now2 (reads ⟨id, hlt⟩) _ hdis
  · intro tr
    exact runButton_disabled _ _ hdis tr

/-- C8 witness: disabling the mid-press example handler (committed pressed,
    pending Short open) clears its state and a later tick leaves it fixed. -/
theorem disable_clears_and_skips_witness :
    ButtonHandler.isPressed examplePressedHandler 0 = true ∧
    (examplePressedHandler.buttons ⟨0, Nat.one_pos⟩).pending_short = true ∧
    ((ButtonHandler.enable examplePressedHandler 0 false 200).buttons
        ⟨0, Nat.one_pos⟩).last_state = false ∧
    ((ButtonHandler.enable examplePressedHandler 0 false 200).buttons
        ⟨0, Nat.one_pos⟩).pending_short = false ∧
    ((ButtonHandler.enable examplePressedHandler 0 false 200).buttons
        ⟨0, Nat.one_pos⟩).event = ButtonPressType.None ∧
    updateButton (ButtonHandler.enable examplePressedHandler 0 false 200).timing
        300 true
        ((ButtonHandler.enable examplePressedHandler 0 false 200).buttons
          ⟨0, Nat.one_pos⟩) =
      (ButtonHandler.enable examplePressedHandler 0 false 200).buttons
        ⟨0, Nat.one_pos⟩ :=
  ⟨by decide, by decide,
    (disable_clears_and_skips examplePressedHandler 0 Nat.one_pos 200).1,
    (disable_clears_and_skips examplePressedHandler 0 Nat.one_pos 200).2.1,
    (disable_clears_and_skips examplePressedHandler 0 Nat.one_pos 200).2.2.1,
    (disable_clears_and_skips examplePressedHandler 0 Nat.one_pos 200).2.2.2.2.1 300 true⟩

/-- C9: disabling an in-range button forces its latched state to OFF (not
    to `latch_initial`) and clears the latch edge flag without raising it,
    so a following consuming read of the flag returns false. -/
theorem disable_forces_latch_off {N : Nat} (h : ButtonHandler N) (id : Nat)
    (hlt : id < N) (now : Nat) :
    ((ButtonHandler.enable h id false now).buttons ⟨id, hlt⟩).latched = false ∧
    ((ButtonHandler.enable h id false now).buttons ⟨id, hlt⟩).latched_changed = false ∧
    (ButtonHandler.getAndClearLatchedChanged
        (ButtonHandler.enable h id false now) id).1 = false := by
  have hb := enable_false_buttons h id hlt now
  refine ⟨by rw [hb]; rfl, by rw [hb]; rfl, ?_⟩
  simp only [ButtonHandler.getAndClearLatchedChanged, hlt, dif_pos]
  rw [hb]; rfl

/-- C9 witness: on the example handler whose latch is configured with
    `latch_initial = true` and currently ON, disable forces the latch OFF
    and the consuming edge-flag read returns false. -/
theorem disable_forces_latch_off_witness :
    ButtonHandler.isLatched exampleLatchHandler 0 = true ∧
    exampleLatchPer.latch_initial = true ∧
    ((ButtonHandler.enable exampleLatchHandler 0 false 50).buttons
        ⟨0, Nat.one_pos⟩).latched = false ∧
    (ButtonHandler.getAndClearLatchedChanged
        (ButtonHandler.enable exampleLatchHandler 0 false 50) 0).1 = false :=
  ⟨by decide, rfl,
    (disable_forces_latch_off exampleLatchHandler 0 Nat.one_pos 50).1,
    (disable_forces_latch_off exampleLatchHandler 0 Nat.one_pos 50).2.2⟩

/-- C10: setPerConfig on an in-range button replaces only that button's
    per-button configuration: its latch state, latch edge flag and all
    press/debounce state are unchanged, other buttons and the global timing
    are unchanged, and a new `latch_initial` only takes effect at the next
    `reset`. -/
theorem setPerConfig_frame {N : Nat} (h : ButtonHandler N) (id : Nat)
    (hlt : id < N) (c : ButtonPerConfig) (t0 : Nat) (j : Fin N) :
    (ButtonHandler.setPerConfig h id c).timing = h.timing ∧
    (ButtonHandler.setPerConfig h id c).buttons ⟨id, hlt⟩ =
      { h.buttons ⟨id, hlt⟩ with per := c } ∧
    (j ≠ ⟨id, hlt⟩ →
      (ButtonHandler.setPerConfig h id c).buttons j = h.buttons j) ∧
    ((ButtonHandler.setPerConfig h id c).buttons ⟨id, hlt⟩).latched =
      (h.buttons ⟨id, hlt⟩).latched ∧
    ((ButtonHandler.setPerConfig h id c).buttons ⟨id, hlt⟩).latched_changed =
      (h.buttons ⟨id, hlt⟩).latched_changed ∧
    ((ButtonHandler.setPerConfig h id c).buttons ⟨id, hlt⟩).last_state =
      (h.buttons ⟨id, hlt⟩).last_state ∧
    ((ButtonHandler.setPerConfig h id c).buttons ⟨id, hlt⟩).last_state_read =
      (h.buttons ⟨id, hlt⟩).last_state_read ∧
    ((ButtonHandler.setPerConfig h id c).buttons ⟨id, hlt⟩).last_state_change =
      (h.buttons ⟨id, hlt⟩).last_state_change ∧
    ((ButtonHandler.setPerConfig h id c).buttons ⟨id, hlt⟩).press_start =
      (h.buttons ⟨id, hlt⟩).press_start ∧
    ((ButtonHandler.setPerConfig h id c).buttons ⟨id, hlt⟩).pending_short =
      (h.buttons ⟨id, hlt⟩).pending_short ∧
    ((ButtonHandler.setPerConfig h id c).buttons ⟨id, hlt⟩).pending_since =
      (h.buttons ⟨id, hlt⟩).pending_since ∧
    ((ButtonHandler.setPerConfig h id c).buttons ⟨id, hlt⟩).event =
      (h.buttons ⟨id, hlt⟩).event ∧
    ((ButtonHandler.setPerConfig h id c).buttons ⟨id, hlt⟩).last_duration =
      (h.buttons ⟨id, hlt⟩).last_duration ∧
    ((ButtonHandler.reset (ButtonHandler.setPerConfig h id c) t0).buttons
        ⟨id, hlt⟩).latched = c.latch_initial := by
  have hb : (ButtonHandler.setPerConfig h id c).buttons ⟨id, hlt⟩ =
      { h.buttons ⟨id, hlt⟩ with per := c } := by
    simp [ButtonHandler.setPerConfig, hlt, Function.update_same]
  have ht : (ButtonHandler.setPerConfig h id c).timing = h.timing := by
    simp [ButtonHandler.setPerConfig, hlt]
  refine ⟨ht, hb, ?_, by rw [hb], by rw [hb], by rw [hb], by rw [hb],
    by rw [hb], by rw [hb], by rw [hb], by rw [hb], by rw [hb], by rw [hb], ?_⟩
  · intro hj
    simp [ButtonHandler.setPerConfig, hlt, Function.update_noteq hj]
  · show ((ButtonHandler.setPerConfig h id c).buttons ⟨id, hlt⟩).per.latch_initial =
      c.latch_initial
    rw [hb]

/-- C10 witness: a config with `latch_initial = true` applied to the
    latched-OFF example button changes neither latch nor press state, and
    the new initial only appears after reset. -/
theorem setPerConfig_frame_witness :
    ((ButtonHandler.setPerConfig examplePressedHandler 0 exampleLatchPer).buttons
        ⟨0, Nat.one_pos⟩).latched = false ∧
    ((ButtonHandler.setPerConfig examplePressedHandler 0 exampleLatchPer).buttons
        ⟨0, Nat.one_pos⟩).last_state = true ∧
    ((ButtonHandler.reset
        (ButtonHandler.setPerConfig examplePressedHandler 0 exampleLatchPer) 500).buttons
        ⟨0, Nat.one_pos⟩).latched = true := by
  have w := setPerConfig_frame examplePressedHandler 0 Nat.one_pos
    exampleLatchPer 500 ⟨0, Nat.one_pos⟩
  exact ⟨by rw [w.2.2.2.1]; rfl, by rw [w.2.2.2.2.2.1]; rfl,
    by rw [w.2.2.2.2.2.2.2.2.2.2.2.2.2]; rfl⟩

lemma wsub_self (a : Nat) : wsub a a = 0 := by
  simp only [wsub, u32]
  omega

lemma edgeStep_noop (now : Nat) (raw : Bool) (st : ButtonState)
    (h : raw = st.last_state_read) : edgeStep now raw st = st := by
  unfold edgeStep
  rw [if_neg (by simp [h])]

lemma releaseClassify_long (sms lms dcms now : Nat) (st : ButtonState)
    (h : lms ≤ pressDuration now st) :
    releaseClassify sms lms dcms now st =
      { st with
          last_duration := pressDuration now st
          event := ButtonPressType.Long
          latched := (applyLatch_ st.per ButtonPressType.Long st.latched
            st.latched_changed).1
          latched_changed := (applyLatch_ st.per ButtonPressType.Long st.latched
            st.latched_changed).2
          press_start := 0 } := by
  unfold releaseClassify
  dsimp only
  rw [if_pos h]

lemma releaseClassify_double (sms lms dcms now : Nat) (st : ButtonState)
    (h1 : pressDuration now st < lms) (h2 : sms ≤ pressDuration now st)
    (h3 : st.pending_short = true) (h4 : wsub now st.pending_since ≤ dcms) :
    releaseClassify sms lms dcms now st =
      { st with
          last_duration := pressDuration now st
          event := ButtonPressType.Double
          pending_short := false
          latched := (applyLatch_ st.per ButtonPressType.Double st.latched
            st.latched_changed).1
          latched_changed := (applyLatch_ st.per ButtonPressType.Double st.latched
            st.latched_changed).2
          press_start := 0 } := by
  unfold releaseClassify
  dsimp only
  rw [if_neg (Nat.not_le.mpr h1), if_pos h2, if_pos ⟨h3, h4⟩]

lemma releaseClassify_held (sms lms dcms now : Nat) (st : ButtonState)
    (h1 : pressDuration now st < lms) (h2 : sms ≤ pressDuration now st)
    (h3 : ¬(st.pending_short = true ∧ wsub now st.pending_since ≤ dcms)) :
    releaseClassify sms lms dcms now st =
      { st with
          last_duration := pressDuration now st
          pending_short := true
          pending_since := now
          press_start := 0 } := by
  unfold releaseClassify
  dsimp only
  rw [if_neg (Nat.not_le.mpr h1), if_pos h2, if_neg h3]

lemma releaseClassify_none (sms lms dcms now : Nat) (st : ButtonState)
    (h1 : pressDuration now st < lms) (h2 : pressDuration now st < sms) :
    releaseClassify sms lms dcms now st =
      { st with
          last_duration := pressDuration now st
          event := ButtonPressType.None
          press_start := 0 } := by
  unfold releaseClassify
  dsimp only
  rw [if_neg (Nat.not_le.mpr h1), if_neg (Nat.not_le.mpr h2)]

lemma releaseClassify_last_duration (sms lms dcms now : Nat) (st : ButtonState) :
    (releaseClassify sms lms dcms now st).last_duration = pressDuration now st := by
  unfold releaseClassify
  dsimp only
  split_ifs <;> rfl

lemma releaseClassify_press_start (sms lms dcms now : Nat) (st : ButtonState) :
    (releaseClassify sms lms dcms now st).press_start = 0 := rfl

lemma flushStep_fire (dcms now : Nat) (st : ButtonState)
    (h1 : st.pending_short = true) (h2 : st.event = ButtonPressType.None)
    (h3 : st.last_state = false) (h4 : st.last_state_read = false)
    (h5 : dcms ≤ wsub now st.pending_since) :
    flushStep dcms now st =
      { st with
          event := ButtonPressType.Short
          pending_short := false
          latched := (applyLatch_ st.per ButtonPressType.Short st.latched
            st.latched_changed).1
          latched_changed := (applyLatch_ st.per ButtonPressType.Short st.latched
            st.latched_changed).2 } := by
  unfold flushStep
  rw [if_pos ⟨h1, h2⟩, if_pos ⟨h3, h4, h5⟩]

lemma flushStep_noop (dcms now : Nat) (st : ButtonState)
    (h : ¬(st.pending_short = true ∧ st.event = ButtonPressType.None ∧
        st.last_state = false ∧ st.last_state_read = false ∧
        dcms ≤ wsub now st.pending_since)) :
    flushStep dcms now st = st := by
  unfold flushStep
  by_cases ho : st.pending_short = true ∧ st.event = ButtonPressType.None
  · rw [if_pos ho, if_neg]
    intro hin
    exact h ⟨ho.1, ho.2, hin.1, hin.2.1, hin.2.2⟩
  · rw [if_neg ho]

lemma updateButton_enabled (timing : ButtonTimingConfig) (now : Nat)
    (pd : Bool) (st : ButtonState) (hen : st.per.enabled = true) :
    updateButton timing now pd st =
      flushStep (resolveT st.per.double_click_ms timing.double_click_ms) now
        (commitStep (resolveT st.per.debounce_ms timing.debounce_ms)
          (resolveT st.per.short_press_ms timing.short_press_ms)
          (resolveT st.per.long_press_ms timing.long_press_ms)
          (resolveT st.per.double_click_ms timing.double_click_ms) now
          (edgeStep now (if st.per.active_low then pd else !pd) st)) := by
  unfold updateButton
  rw [if_neg (by simp [hen])]

/-- C1: on a committed release (committed true with raw stably false for at
    least the debounce window), the commit block records the duration
    (`now - press_start` if set, else 0) as `last_duration`, clears
    `press_start`, and classifies: Long when the duration reaches the long
    threshold; Double (closing the pending window) when it reaches the
    short threshold and a pending Short is open within the double-click
    gap; a held-back pending Short (no event finalized, window opened at
    `now`) when it reaches the short threshold otherwise; None below the
    short threshold. -/
theorem release_commit_classification
    (dms sms lms dcms now : Nat) (st : ButtonState)
    (hc : st.last_state = true) (hr : st.last_state_read = false)
    (hd : dms ≤ wsub now st.last_state_change) :
    (commitStep dms sms lms dcms now st).last_state = false ∧
    (commitStep dms sms lms dcms now st).last_duration = pressDuration now st ∧
    (commitStep dms sms lms dcms now st).press_start = 0 ∧
    (lms ≤ pressDuration now st →
      (commitStep dms sms lms dcms now st).event = ButtonPressType.Long) ∧
    (pressDuration now st < lms → sms ≤ pressDuration now st →
      st.pending_short = true → wsub now st.pending_since ≤ dcms →
      (commitStep dms sms lms dcms now st).event = ButtonPressType.Double ∧
      (commitStep dms sms lms dcms now st).pending_short = false) ∧
    (pressDuration now st < lms → sms ≤ pressDuration now st →
      ¬(st.pending_short = true ∧ wsub now st.pending_since ≤ dcms) →
      (commitStep dms sms lms dcms now st).event = st.event ∧
      (commitStep dms sms lms dcms now st).pending_short = true ∧
      (commitStep dms sms lms dcms now st).pending_since = now) ∧
    (pressDuration now st < sms → pressDuration now st < lms →
      (commitStep dms sms lms dcms now st).event = ButtonPressType.None) := by
  rw [commitStep_release dms sms lms dcms now st hc hr hd]
  refine ⟨?_, ?_, ?_, ?_, ?_, ?_, ?_⟩
  · rw [releaseClassify_last_state]
  · rw [releaseClassify_last_duration]; rfl
  · rw [releaseClassify_press_start]
  · intro hl
    rw [releaseClassify_long sms lms dcms now { st with last_state := false } hl]
  · intro hl hs hp hg
    rw [releaseClassify_double sms lms dcms now { st with last_state := false }
      hl hs hp hg]
    exact ⟨rfl, rfl⟩
  · intro hl hs hnp
    rw [releaseClassify_held sms lms dcms now { st with last_state := false }
      hl hs hnp]
    exact ⟨rfl, rfl, rfl⟩
  · intro hs hl
    rw [releaseClassify_none sms lms dcms now { st with last_state := false }
      hl hs]

/-- C1 witness: with the default timings, a release committed at 460 after
    a press committed at 130 (duration 330, short-classifiable, no pending
    window open) records the duration, clears the press start, finalizes
    nothing, and opens the pending window at 460. -/
theorem release_commit_classification_witness :
    (commitStep 30 200 1000 400 460
        { last_state := true
          last_state_read := false
          last_state_change := 430
          press_start := 130
          event := ButtonPressType.None
          pending_short := false
          pending_since := 0
          last_duration := 0
          latched := false
          latched_changed := false
          per := {} }).last_duration = 330 ∧
    (commitStep 30 200 1000 400 460
        { last_state := true
          last_state_read := false
          last_state_change := 430
          press_start := 130
          event := ButtonPressType.None
          pending_short := false
          pending_since := 0
          last_duration := 0
          latched := false
          latched_changed := false
          per := {} }).event = ButtonPressType.None ∧
    (commitStep 30 200 1000 400 460
        { last_state := true
          last_state_read := false
          last_state_change := 430
          press_start := 130
          event := ButtonPressType.None
          pending_short := false
          pending_since := 0
          last_duration := 0
          latched := false
          latched_changed := false
          per := {} }).pending_short = true ∧
    (commitStep 30 200 1000 400 460
        { last_state := true
          last_state_read := false
          last_state_change := 430
          press_start := 130
          event := ButtonPressType.None
          pending_short := false
          pending_since := 0
          last_duration := 0
          latched := false
          latched_changed := false
          per := {} }).pending_since = 460 := by
  have w := release_commit_classification 30 200 1000 400 460
    { last_state := true
      last_state_read := false
      last_state_change := 430
      press_start := 130
      event := ButtonPressType.None
      pending_short := false
      pending_since := 0
      last_duration := 0
      latched := false
      latched_changed := false
      per := {} } rfl rfl (by decide)
  have hheld := w.2.2.2.2.2.1 (by decide) (by decide) (by decide)
  exact ⟨by rw [w.2.1]; decide, hheld.1, hheld.2.1, hheld.2.2⟩

/-- C3: the pending-window flush finalizes a held-back Short (event set to
    Short, pending window closed, latch applied) exactly when a pending
    Short is open, no event is queued, both the raw and the committed state
    are released, and the double-click gap has elapsed since the window
    opened; when any of these fails the flush block leaves the state
    entirely unchanged. -/
theorem pending_flush_exact (dcms now : Nat) (st : ButtonState) :
    (st.pending_short = true → st.event = ButtonPressType.None →
      st.last_state = false → st.last_state_read = false →
      dcms ≤ wsub now st.pending_since →
      (flushStep dcms now st).event = ButtonPressType.Short ∧
      (flushStep dcms now st).pending_short = false ∧
      (flushStep dcms now st).latched =
        (applyLatch_ st.per ButtonPressType.Short st.latched st.latched_changed).1 ∧
      (flushStep dcms now st).latched_changed =
        (applyLatch_ st.per ButtonPressType.Short st.latched st.latched_changed).2) ∧
    (¬(st.pending_short = true ∧ st.event = ButtonPressType.None ∧
        st.last_state = false ∧ st.last_state_read = false ∧
        dcms ≤ wsub now st.pending_since) →
      flushStep dcms now st = st) := by
  constructor
  · intro h1 h2 h3 h4 h5
    rw [flushStep_fire dcms now st h1 h2 h3 h4 h5]
    exact ⟨rfl, rfl, rfl, rfl⟩
  · exact flushStep_noop dcms now st

/-- C3 witness: a solitary pending Short opened at 460 flushes as Short at
    860 with the default 400 ms double-click gap. -/
theorem pending_flush_exact_witness :
    (flushStep 400 860
        { last_state := false
          last_state_read := false
          last_state_change := 430
          press_start := 0
          event := ButtonPressType.None
          pending_short := true
          pending_since := 460
          last_duration := 330
          latched := false
          latched_changed := false
          per := {} }).event = ButtonPressType.Short ∧
    (flushStep 400 860
        { last_state := false
          last_state_read := false
          last_state_change := 430
          press_start := 0
          event := ButtonPressType.None
          pending_short := true
          pending_since := 460
          last_duration := 330
          latched := false
          latched_changed := false
          per := {} }).pending_short = false :=
  ⟨((pending_flush_exact 400 860 _).1 rfl rfl rfl rfl (by decide)).1,
    ((pending_flush_exact 400 860 _).1 rfl rfl rfl rfl (by decide)).2.1⟩

lemma commitStep_fired_last_state (dms sms lms dcms now : Nat) (st : ButtonState)
    (h : dms ≤ wsub now st.last_state_change ∧ st.last_state ≠ st.last_state_read) :
    (commitStep dms sms lms dcms now st).last_state = st.last_state_read := by
  unfold commitStep
  rw [if_pos h]
  by_cases hsr : st.last_state_read = true
  · simp only [hsr]
    rfl
  · have hsr' : st.last_state_read = false := by
      cases hx : st.last_state_read
      · rfl
      · exact absurd hx hsr
    simp only [hsr']
    rw [if_neg (by decide), releaseClassify_last_state]

lemma updateButton_last_state_cases (timing : ButtonTimingConfig) (now : Nat)
    (pd : Bool) (st : ButtonState) :
    (updateButton timing now pd st).last_state = st.last_state ∨
    (st.per.enabled = true ∧
      resolveT st.per.debounce_ms timing.debounce_ms ≤
        wsub now (edgeStep now (if st.per.active_low then pd else !pd) st).last_state_change ∧
      (edgeStep now (if st.per.active_low then pd else !pd) st).last_state_read ≠
        st.last_state ∧
      (updateButton timing now pd st).last_state =
        (edgeStep now (if st.per.active_low then pd else !pd) st).last_state_read) := by
  by_cases hen : st.per.enabled = true
  · rw [updateButton_enabled timing now pd st hen]
    rw [flushStep_last_state]
    by_cases hcond :
        resolveT st.per.debounce_ms timing.debounce_ms ≤
          wsub now (edgeStep now (if st.per.active_low then pd else !pd) st).last_state_change ∧
        (edgeStep now (if st.per.active_low then pd else !pd) st).last_state ≠
          (edgeStep now (if st.per.active_low then pd else !pd) st).last_state_read
    · right
      rw [commitStep_fired_last_state _ _ _ _ _ _ hcond]
      refine ⟨hen, hcond.1, ?_, rfl⟩
      have he := edgeStep_last_state now (if st.per.active_low then pd else !pd) st
      intro hx
      exact hcond.2 (he.trans hx.symm)
    · left
      rw [commitStep_not_fired _ _ _ _ _ _ hcond]
      exact edgeStep_last_state now (if st.per.active_low then pd else !pd) st
  · left
    have hen' : st.per.enabled = false := by
      cases hx : st.per.enabled
      · rfl
      · exact absurd hx hen
    rw [updateButton_disabled timing now pd st hen']

lemma updateButton_no_commit (timing : ButtonTimingConfig) (now : Nat)
    (pd : Bool) (st : ButtonState)
    (h : wsub now (edgeStep now (if st.per.active_low then pd else !pd)
          st).last_state_change <
        resolveT st.per.debounce_ms timing.debounce_ms) :
    (updateButton timing now pd st).last_state = st.last_state := by
  rcases updateButton_last_state_cases timing now pd st with hc | hc
  · exact hc
  · exact absurd hc.2.1 (Nat.not_le.mpr h)

/-- C4: committed state is stable under bounce: over any tick trace in
    which, at every tick, the raw level (after the edge update) has been
    stable for strictly less than the debounce window, `last_state` never
    changes; and whenever a tick does change `last_state`, the raw level
    had been stable for at least the debounce window and the stable raw
    level differed from (and becomes) the committed state. -/
theorem debounce_stability_commit_condition :
    (∀ (timing : ButtonTimingConfig) (st : ButtonState) (tr : List (Nat × Bool)),
      flipsWithin timing st tr = true →
      (runButton timing st tr).last_state = st.last_state) ∧
    (∀ (timing : ButtonTimingConfig) (now : Nat) (pd : Bool) (st : ButtonState),
      (updateButton timing now pd st).last_state ≠ st.last_state →
      resolveT st.per.debounce_ms timing.debounce_ms ≤
        wsub now (edgeStep now (if st.per.active_low then pd else !pd)
          st).last_state_change ∧
      (edgeStep now (if st.per.active_low then pd else !pd) st).last_state_read ≠
        st.last_state ∧
      (updateButton timing now pd st).last_state =
        (edgeStep now (if st.per.active_low then pd else !pd) st).last_state_read) := by
  constructor
  · intro timing st tr
    induction tr generalizing st with
    | nil => intro _; rfl
    | cons head rest ih =>
        obtain ⟨now, pd⟩ := head
        intro hf
        rw [flipsWithin] at hf
        simp only [Bool.and_eq_true, decide_eq_true_eq] at hf
        rw [runButton, ih _ hf.2]
        exact updateButton_no_commit timing now pd st hf.1
  · intro timing now pd st hne
    rcases updateButton_last_state_cases timing now pd st with hc | hc
    · exact absurd hc hne
    · exact ⟨hc.2.1, hc.2.2.1, hc.2.2.2⟩

/-- C4 witness: a four-tick trace whose raw flips all occur strictly inside
    the default 30 ms debounce window leaves the committed state unchanged. -/
theorem debounce_stability_witness :
    flipsWithin ({} : ButtonTimingConfig) (ButtonState.init {} 0)
        [(0, true), (10, true), (20, false), (45, false)] = true ∧
    (runButton ({} : ButtonTimingConfig) (ButtonState.init {} 0)
        [(0, true), (10, true), (20, false), (45, false)]).last_state =
      (ButtonState.init {} 0).last_state :=
  ⟨by decide,
    debounce_stability_commit_condition.1 {} (ButtonState.init {} 0)
      [(0, true), (10, true), (20, false), (45, false)] (by decide)⟩

/-- C2 counterexample: with the default timings (short 200, long 1000, gap
    400), two committed releases that are each individually classifiable as
    Short (durations 330 and 400) whose completions are 670 > 400 apart do
    NOT finalize as two separate Short events: the trace below (second
    press already in progress when the 400 ms window from the first
    completion at 460 expires) finalizes exactly one Short and no Double —
    the held-back first Short is dropped when the second completion at 1130
    re-opens the pending window. -/
theorem double_click_two_shorts_counterexample :
    (runButton {} (ButtonState.init {} 0)
        [(100, true), (130, true), (430, false)]).last_state = true ∧
    (runButton {} (ButtonState.init {} 0)
        [(100, true), (130, true), (430, false), (460, false)]).last_state = false ∧
    (runButton {} (ButtonState.init {} 0)
        [(100, true), (130, true), (430, false), (460, false)]).last_duration = 330 ∧
    (runButton {} (ButtonState.init {} 0)
        [(100, true), (130, true), (430, false), (460, false), (700, true),
          (730, true), (1100, false)]).last_state = true ∧
    (runButton {} (ButtonState.init {} 0)
        [(100, true), (130, true), (430, false), (460, false), (700, true),
          (730, true), (1100, false), (1130, false)]).last_state = false ∧
    (runButton {} (ButtonState.init {} 0)
        [(100, true), (130, true), (430, false), (460, false), (700, true),
          (730, true), (1100, false), (1130, false)]).last_duration = 400 ∧
    (200 ≤ 330 ∧ 330 < 1000 ∧ 200 ≤ 400 ∧ 400 < 1000) ∧
    wsub 1130 460 = 670 ∧ 400 < 670 ∧
    (runConsume {} (ButtonState.init {} 0)
        [(100, true), (130, true), (430, false), (460, false), (700, true),
          (730, true), (1100, false), (1130, false), (1530, false)]).2.count
      ButtonPressType.Short = 1 ∧
    (runConsume {} (ButtonState.init {} 0)
        [(100, true), (130, true), (430, false), (460, false), (700, true),
          (730, true), (1100, false), (1130, false), (1530, false)]).2.count
      ButtonPressType.Double = 0 := by
  decide

/-- C2 amended: at a tick committing a release whose duration is
    individually Short-classifiable, if the pending window opened by the
    first completion is still within the double-click gap, the tick
    finalizes exactly one Double and closes the window (never a second
    Short); otherwise (window closed or over-gap, with a positive gap) the
    tick finalizes nothing for the first press — it re-opens the pending
    window at this completion — so over-gap releases yield two separate
    Shorts only when the first window was flushed by a tick with both raw
    and committed released before the second release committed. -/
theorem double_click_gap_amended
    (timing : ButtonTimingConfig) (pd : Bool) (st : ButtonState) (now : Nat)
    (hen : st.per.enabled = true)
    (hraw : (if st.per.active_low then pd else !pd) = false)
    (hc : st.last_state = true) (hr : st.last_state_read = false)
    (hd : resolveT st.per.debounce_ms timing.debounce_ms ≤
      wsub now st.last_state_change)
    (hs : resolveT st.per.short_press_ms timing.short_press_ms ≤
      pressDuration now st)
    (hl : pressDuration now st <
      resolveT st.per.long_press_ms timing.long_press_ms) :
    (st.pending_short = true →
      wsub now st.pending_since ≤
        resolveT st.per.double_click_ms timing.double_click_ms →
      (updateButton timing now pd st).event = ButtonPressType.Double ∧
      (updateButton timing now pd st).pending_short = false) ∧
    (0 < resolveT st.per.double_click_ms timing.double_click_ms →
      ¬(st.pending_short = true ∧ wsub now st.pending_since ≤
          resolveT st.per.double_click_ms timing.double_click_ms) →
      (updateButton timing now pd st).event = st.event ∧
      (updateButton timing now pd st).pending_short = true ∧
      (updateButton timing now pd st).pending_since = now) := by
  rw [updateButton_enabled timing now pd st hen]
  rw [edgeStep_noop now (if st.per.active_low then pd else !pd) st
    (hraw.trans hr.symm)]
  rw [commitStep_release _ _ _ _ now st hc hr hd]
  constructor
  · intro hp hg
    rw [releaseClassify_double _ _ _ now { st with last_state := false }
      hl hs hp hg]
    rw [flushStep_noop _ now _ (fun hx => Bool.noConfusion hx.1)]
    exact ⟨rfl, rfl⟩
  · intro hdc hnp
    rw [releaseClassify_held _ _ _ now { st with last_state := false }
      hl hs hnp]
    rw [flushStep_noop]
    · exact ⟨rfl, rfl, rfl⟩
    · intro hx
      have h5 := hx.2.2.2.2
      rw [wsub_self] at h5
      omega

/-- C2 amended witness: at the second completion of the counterexample
    trace (pending since 460, completing at 1130, gap 670 > 400) the tick
    finalizes nothing and re-opens the window at 1130; with the same state
    pending since 860 (gap 270 within 400) it finalizes a Double. -/
theorem double_click_gap_amended_witness :
    (updateButton {} 1130 false
        { last_state := true
          last_state_read := false
          last_state_change := 1100
          press_start := 730
          event := ButtonPressType.None
          pending_short := true
          pending_since := 460
          last_duration := 330
          latched := false
          latched_changed := false
          per := {} }).event = ButtonPressType.None ∧
    (updateButton {} 1130 false
        { last_state := true
          last_state_read := false
          last_state_change := 1100
          press_start := 730
          event := ButtonPressType.None
          pending_short := true
          pending_since := 460
          last_duration := 330
          latched := false
          latched_changed := false
          per := {} }).pending_since = 1130 ∧
    (updateButton {} 1130 false
        { last_state := true
          last_state_read := false
          last_state_change := 1100
          press_start := 730
          event := ButtonPressType.None
          pending_short := true
          pending_since := 860
          last_duration := 330
          latched := false
          latched_changed := false
          per := {} }).event = ButtonPressType.Double := by
  have w1 := double_click_gap_amended {} false
    { last_state := true
      last_state_read := false
      last_state_change := 1100
      press_start := 730
      event := ButtonPressType.None
      pending_short := true
      pending_since := 460
      last_duration := 330
      latched := false
      latched_changed := false
      per := {} } 1130 rfl rfl rfl rfl (by decide) (by decide) (by decide)
  have w2 := double_click_gap_amended {} false
    { last_state := true
      last_state_read := false
      last_state_change := 1100
      press_start := 730
      event := ButtonPressType.None
      pending_short := true
      pending_since := 860
      last_duration := 330
      latched := false
      latched_changed := false
      per := {} } 1130 rfl rfl rfl rfl (by decide) (by decide) (by decide)
  have h1 := w1.2 (by decide) (by decide)
  exact ⟨h1.1, h1.2.2, (w2.1 rfl (by decide)).1⟩
